import Mathlib

/-!
Verification of the elfo type-erased message envelope core
(`src/elfo-core/src/message.rs`).

The `Message` trait's default methods are embedded directly from the
source.  The companion modules `any`, `protocol`, `repr` and `dumping`
(declared in `message.rs` but whose sources are not available) are
modelled from the specification; each such definition carries a doc
comment starting with `Modelled from the spec:`.
-/

namespace Elfo

/-- Modelled from the spec: `MessageTypeId` lives in the missing `protocol`
module.  "A unique, process-stable identity per concrete message type ...
compared only for equality."  We model it as an opaque wrapper around a
natural number with decidable equality. -/
structure MessageTypeId where
  raw : Nat
deriving DecidableEq

/-- A telemetry label (the `metrics::Label` type): a key/value pair. -/
structure Label where
  key : String
  value : String
deriving DecidableEq

/-- A size/alignment layout descriptor (`alloc::Layout`). -/
structure ReprLayout where
  size : Nat
  align : Nat
deriving DecidableEq

/-- Modelled from the spec: `MessageVTable` lives in the missing `protocol`
module.  "An immutable, per-type static record of metadata and layout.
Fields: display name, protocol/namespace name, a set of pre-built telemetry
labels, a diagnostic-capture permission flag, and the representation's
size/alignment descriptor."  The field names follow the accesses made by
the `Message` trait in `message.rs`: `.name`, `.protocol`, `.labels`,
`.dumping_allowed`, `.repr_layout`. -/
structure MessageVTable where
  name : String
  protocol : String
  labels : List Label
  dumping_allowed : Bool
  repr_layout : ReprLayout
deriving DecidableEq

/-- Modelled from the spec: the compile-time code-generation collaborator
(the `#[message]` macro, out of scope of the source file) assigns to each
concrete message type exactly one `MessageTypeId` and one static
`MessageVTable`; identifiers are unique per type ("no collision resolution
needed"), hence `type_id` is injective.  A `MessageUniverse` is the family
of concrete message types so generated: `Ty` indexes the concrete types,
`Payload a` is the Lean type of values of the concrete type `a`. -/
structure MessageUniverse where
  Ty : Type
  Payload : Ty → Type
  type_id : Ty → MessageTypeId
  vtable : Ty → MessageVTable
  type_id_injective : ∀ a b : Ty, type_id a = type_id b → a = b

namespace Message

variable {U : MessageUniverse}

/-- `Message::_vtable` (message.rs line 61): returns the static per-type
vtable.  In the model the vtable is looked up from the universe by the
value's concrete type; the payload value itself is not consulted. -/
def vtable (U : MessageUniverse) (a : U.Ty) : MessageVTable :=
  U.vtable a

/-- `Message::_type_id` (message.rs line 58): the static identifier of the
concrete type. -/
def type_id (U : MessageUniverse) (a : U.Ty) : MessageTypeId :=
  U.type_id a

/-- `Message::name` (message.rs lines 27-29): `self._vtable().name`.
The `self` payload argument is taken, as in the source, but only the
static vtable is read. -/
def name (U : MessageUniverse) (a : U.Ty) (_self : U.Payload a) : String :=
  (vtable U a).name

/-- `Message::protocol` (message.rs lines 32-34): `self._vtable().protocol`. -/
def protocol (U : MessageUniverse) (a : U.Ty) (_self : U.Payload a) : String :=
  (vtable U a).protocol

/-- `Message::labels` (message.rs lines 38-40): `&self._vtable().labels`. -/
def labels (U : MessageUniverse) (a : U.Ty) (_self : U.Payload a) : List Label :=
  (vtable U a).labels

/-- `Message::dumping_allowed` (message.rs lines 44-46):
`self._vtable().dumping_allowed`. -/
def dumping_allowed (U : MessageUniverse) (a : U.Ty) (_self : U.Payload a) : Bool :=
  (vtable U a).dumping_allowed

/-- `Message::_repr_layout` (message.rs lines 65-67):
`self._vtable().repr_layout`. -/
def repr_layout (U : MessageUniverse) (a : U.Ty) (_self : U.Payload a) : ReprLayout :=
  (vtable U a).repr_layout

/-- `Message::_is_supertype_of` (message.rs lines 73-75), the default
implementation for every concrete type: `Self::_type_id() == type_id`. -/
def is_supertype_of (U : MessageUniverse) (a : U.Ty) (tid : MessageTypeId) : Bool :=
  type_id U a == tid

end Message

/-- Modelled from the spec: the Erased Envelope (`AnyMessage`, missing `any`
module).  "Owns a type-erased byte region ... plus a reference to the
originating Capability Table.  Invariant: reinterpreting the byte region at
the table's recorded layout always yields a valid instance of exactly the
type the table describes."  In the model the envelope therefore stores the
concrete type it was built from together with a payload of exactly that
type; the stored identifier and table are recovered from it. -/
structure AnyMessage (U : MessageUniverse) where
  ty : U.Ty
  payload : U.Payload ty

namespace AnyMessage

variable {U : MessageUniverse}

/-- Modelled from the spec: `AnyMessage::from_real` (missing `any` module),
the target of `Message::_into_any`; "`new(message)`: builds an envelope
from any concrete message ... records the table reference". -/
def from_real (U : MessageUniverse) (a : U.Ty) (v : U.Payload a) : AnyMessage U :=
  ⟨a, v⟩

/-- Modelled from the spec: the envelope's stored identifier — the type
identifier recorded at construction. -/
def type_id (m : AnyMessage U) : MessageTypeId :=
  U.type_id m.ty

/-- Modelled from the spec: the envelope's stored capability table. -/
def vtable (m : AnyMessage U) : MessageVTable :=
  U.vtable m.ty

/-- Modelled from the spec: envelope `name()`, "forwarded from the stored
table without needing the concrete type". -/
def name (m : AnyMessage U) : String :=
  m.vtable.name

/-- Modelled from the spec: envelope `protocol()`, forwarded from the
stored table. -/
def protocol (m : AnyMessage U) : String :=
  m.vtable.protocol

/-- Modelled from the spec: envelope `labels()`, forwarded from the stored
table. -/
def labels (m : AnyMessage U) : List Label :=
  m.vtable.labels

/-- Modelled from the spec: envelope `dumping_allowed()`, forwarded from
the stored table. -/
def dumping_allowed (m : AnyMessage U) : Bool :=
  m.vtable.dumping_allowed

/-- Modelled from the spec: `AnyMessage` overrides `_is_supertype_of` "to
report compatibility with any identifier, since it is a universal
supertype that can hold any message" (the NOTE at message.rs line 69: all
methods below must be overridden for `AnyMessage`). -/
def is_supertype_of (_tid : MessageTypeId) : Bool :=
  true

end AnyMessage

namespace Message

variable {U : MessageUniverse}

/-- `Message::_into_any` (message.rs lines 79-81):
`AnyMessage::from_real(self)`. -/
def into_any (U : MessageUniverse) (a : U.Ty) (v : U.Payload a) : AnyMessage U :=
  AnyMessage.from_real U a v

/-- `Message::upcast` (message.rs lines 51-53), the deprecated public entry
point: `self._into_any()`. -/
def upcast (U : MessageUniverse) (a : U.Ty) (v : U.Payload a) : AnyMessage U :=
  into_any U a v

/-- `Message::_from_any` (message.rs lines 88-90): the unchecked consuming
downcast `any.into_real()`.  Its safety precondition — "the caller must
ensure that `any` holds this message type" — becomes the explicit proof
argument `h`. -/
def from_any (U : MessageUniverse) (a : U.Ty) (m : AnyMessage U) (h : m.ty = a) :
    U.Payload a :=
  cast (congrArg U.Payload h) m.payload

end Message

namespace AnyMessage

variable {U : MessageUniverse}

/-- Modelled from the spec: the checked consuming downcast of the Erased
Envelope (missing `any` module).  "`downcast::<T>()` (checked, consuming):
compares the envelope's stored identifier against `T`'s compatibility
predicate; on mismatch, returns a failure result — never aborts, never
corrupts state; on match, performs the underlying unchecked extraction and
transfers ownership out."  On mismatch the untouched envelope is handed
back in the failure result, so the payload can still be recovered. -/
def downcast (U : MessageUniverse) (b : U.Ty) (m : AnyMessage U) :
    Except (AnyMessage U) (U.Payload b) :=
  if h : Message.is_supertype_of U b m.type_id = true then
    .ok (Message.from_any U b m (U.type_id_injective b m.ty (eq_of_beq h)).symm)
  else
    .error m

end AnyMessage

/-- `Clone::clone` for a message type.  Messages are plain data
(`Clone + Serialize + Deserialize`); in this value-semantics model a deep
copy of a payload is the payload itself. -/
def Message.clone (U : MessageUniverse) (a : U.Ty) (v : U.Payload a) : U.Payload a :=
  v

/-- Modelled from the spec: `dumping::ErasedMessage` (missing `dumping`
module), "a second, independent small-object container used by an external
diagnostics/audit collaborator" — a separate erased snapshot with its own
storage, decoupled from the primary envelope. -/
structure ErasedMessage (U : MessageUniverse) where
  ty : U.Ty
  payload : U.Payload ty

/-- `Message::_erase` (message.rs lines 103-105):
`smallbox!(self.clone())` — unconditionally clone the payload into the
diagnostic container.  No field of the vtable (in particular not
`dumping_allowed`) is consulted. -/
def Message.erase (U : MessageUniverse) (a : U.Ty) (v : U.Payload a) : ErasedMessage U :=
  ⟨a, Message.clone U a v⟩

/-- Modelled from the spec: `MessageRepr` (missing `repr` module), the
Representation Wrapper — "a table reference followed by the payload"
(message.rs line 118 shows its `data` field holding the value). -/
structure MessageRepr (U : MessageUniverse) (a : U.Ty) where
  vtable : MessageVTable
  data : U.Payload a

/-- Modelled from the spec: `MessageRepr::new` (missing `repr` module) —
"constructing it (wrap) attaches the static table to a value; nothing else
mutates it". -/
def MessageRepr.new (U : MessageUniverse) (a : U.Ty) (v : U.Payload a) :
    MessageRepr U a :=
  ⟨U.vtable a, v⟩

/-- A buffer for the erasure boundary: a memory region that either holds a
fully initialized representation wrapper of type `a` or does not.  Models
the region behind the `NonNull<MessageRepr>` pointer of `_read`/`_write`. -/
def ReprBuffer (U : MessageUniverse) (a : U.Ty) : Type :=
  Option (MessageRepr U a)

/-- `Message::_write` (message.rs lines 131-134):
`ptr::write(ptr, MessageRepr::new(self))` — moves `self` into the buffer.
`ptr::write` overwrites without reading or dropping the old contents, so
the previous buffer state is ignored and no destructor runs; the second
component counts destructor invocations performed by the operation (0). -/
def Message.write (U : MessageUniverse) (a : U.Ty) (v : U.Payload a)
    (_buf : ReprBuffer U a) : ReprBuffer U a × Nat :=
  (some (MessageRepr.new U a v), 0)

/-- `Message::_read` (message.rs lines 117-120):
`ptr::read(&repr.data)` — moves the value out of the buffer by a bit-copy.
`ptr::read` leaves the source bytes untouched and runs no destructor on
them; the second component counts destructor invocations performed by the
operation (0).  Reading an unpopulated buffer is undefined behavior in the
source and yields `none` in the model. -/
def Message.read (U : MessageUniverse) (a : U.Ty) (buf : ReprBuffer U a) :
    Option (U.Payload a) × Nat :=
  (buf.map (fun r => r.data), 0)

/-- Modelled from the spec: the state of an envelope shell over its
lifetime — it either still owns its payload (`full`) or the payload has
been transferred out by a successful consuming downcast (`extracted`). -/
inductive EnvelopeState where
  | full
  | extracted
deriving DecidableEq

/-- Modelled from the spec: destruction of the envelope shell (missing
`any` module `Drop` impl).  "On drop, runs the owned value's cleanup
exactly once via the table"; "after a successful downcast, the emptied
envelope must not run cleanup again."  Returns how many times the
payload's cleanup runs when the shell is dropped in the given state. -/
def dropShellCleanupRuns : EnvelopeState → Nat
  | .full => 1
  | .extracted => 0

/-- Modelled from the spec: the two complete lifecycles of an envelope —
constructed and dropped without downcasting, or successfully downcast
(ownership transferred out) and then both the shell and the extracted
value dropped. -/
inductive Lifecycle where
  | dropWithoutDowncast
  | downcastThenDrop
deriving DecidableEq

/-- The state the envelope shell is in when it is finally dropped, for
each lifecycle: still `full` if it was never downcast, `extracted` after
a successful consuming downcast. -/
def shellStateAtDrop : Lifecycle → EnvelopeState
  | .dropWithoutDowncast => .full
  | .downcastThenDrop => .extracted

/-- How many times the payload's cleanup runs on the extracted value
itself: once by its new owner if it was extracted, never otherwise
(construction of the envelope moves the value in and runs no cleanup). -/
def extractedValueCleanupRuns : Lifecycle → Nat
  | .dropWithoutDowncast => 0
  | .downcastThenDrop => 1

/-- The total number of times the payload's cleanup runs across
construction, optional extraction, and drop of the shell. -/
def totalCleanupRuns (lc : Lifecycle) : Nat :=
  extractedValueCleanupRuns lc + dropShellCleanupRuns (shellStateAtDrop lc)

/-- The `Request` trait (message.rs lines 142-149): a request declares an
associated `Response` type and a `Wrapper` type implementing
`Into<Self::Response> + From<Self::Response>`.  Modelled from the spec:
the wrapper is produced by the excluded compile-time generation step and
"this core only requires that the triple's conversions be total and
inverse", so the lossless two-way conversion laws are part of the
contract (`into_from` / `from_into`). -/
structure Request where
  Response : Type
  Wrapper : Type
  wrapper_into_response : Wrapper → Response
  wrapper_from_response : Response → Wrapper
  into_from : ∀ r : Response, wrapper_into_response (wrapper_from_response r) = r
  from_into : ∀ w : Wrapper, wrapper_from_response (wrapper_into_response w) = w

/-- The scenario message type of the spec: `Ping { id: u32 }`. -/
structure Ping where
  id : Nat
deriving DecidableEq

/-- The unrelated scenario message type of the spec: `Pong`. -/
structure Pong where
  id : Nat
deriving DecidableEq

/-- A message type whose vtable forbids dumping, for exercising
`erase()` under `dumping_allowed() == false`. -/
structure SecretReport where
  code : Nat
deriving DecidableEq

/-- The concrete message types of the test universe. -/
inductive TestTy where
  | ping
  | pong
  | secret
deriving DecidableEq

/-- Payload types of the test universe. -/
def TestTy.payloadType : TestTy → Type
  | .ping => Ping
  | .pong => Pong
  | .secret => SecretReport

/-- Type identifiers of the test universe, pairwise distinct. -/
def TestTy.tid : TestTy → MessageTypeId
  | .ping => ⟨1⟩
  | .pong => ⟨2⟩
  | .secret => ⟨3⟩

/-- Vtables of the test universe, following the spec scenario: `Ping` has
protocol "net" and name "Ping"; `SecretReport` has `dumping_allowed` set
to `false`. -/
def TestTy.vt : TestTy → MessageVTable
  | .ping => ⟨"Ping", "net", [⟨"message", "Ping"⟩], true, ⟨4, 4⟩⟩
  | .pong => ⟨"Pong", "net", [⟨"message", "Pong"⟩], true, ⟨4, 4⟩⟩
  | .secret => ⟨"SecretReport", "audit", [⟨"message", "SecretReport"⟩], false, ⟨4, 4⟩⟩

/-- A concrete universe of three registered message types, used to witness
the theorems on concrete inputs. -/
def testUniverse : MessageUniverse where
  Ty := TestTy
  Payload := TestTy.payloadType
  type_id := TestTy.tid
  vtable := TestTy.vt
  type_id_injective := by
    intro a b h
    cases a <;> cases b <;> first | rfl | simp [TestTy.tid] at h

/-- A concrete request triple whose response shape (`Option Nat`) does not
itself satisfy the message constraints and travels via a wrapper. -/
structure OptionNatWrapper where
  inner : Option Nat
deriving DecidableEq

/-- A concrete lawful `Request` instance over `Option Nat`. -/
def testRequest : Request where
  Response := Option Nat
  Wrapper := OptionNatWrapper
  wrapper_into_response := fun w => w.inner
  wrapper_from_response := fun r => ⟨r⟩
  into_from := fun _ => rfl
  from_into := fun _ => rfl

/-- Claim C1: for every concrete message value `v` of type `T`,
constructing an erased envelope from `v` and then performing the checked
consuming downcast back to `T` succeeds and yields `v` itself. -/
theorem c1_downcast_roundtrip (U : MessageUniverse) (a : U.Ty) (v : U.Payload a) :
    AnyMessage.downcast U a (Message.into_any U a v) = .ok v := by
  have hc : Message.is_supertype_of U a
      (AnyMessage.type_id (Message.into_any U a v)) = true := by
    simp [Message.is_supertype_of, AnyMessage.type_id, Message.into_any,
      AnyMessage.from_real, Message.type_id]
  unfold AnyMessage.downcast
  rw [dif_pos hc]
  simp only [Message.from_any]
  exact congrArg Except.ok (eq_of_heq (cast_heq _ _))

/-- Claim C2: for every value `v` of concrete type `A` and every distinct
concrete type `B`, the checked downcast of an envelope built from `v` to
type `B` fails with a failure result carrying the envelope back unchanged,
so the payload can still be recovered afterwards; it never returns a
value. -/
theorem c2_downcast_type_safety (U : MessageUniverse) (a b : U.Ty)
    (v : U.Payload a) (hab : b ≠ a) :
    AnyMessage.downcast U b (Message.into_any U a v) =
      .error (Message.into_any U a v) := by
  have hc : ¬ Message.is_supertype_of U b
      (AnyMessage.type_id (Message.into_any U a v)) = true := by
    simp only [Message.is_supertype_of, AnyMessage.type_id, Message.into_any,
      AnyMessage.from_real, Message.type_id, beq_iff_eq]
    intro h
    exact hab (U.type_id_injective b a h)
  unfold AnyMessage.downcast
  rw [dif_neg hc]

/-- Claim C2 witness: downcasting an envelope built from `Ping { id: 7 }`
to the unrelated type `Pong` fails and hands the intact envelope back. -/
theorem c2_downcast_type_safety_witness :
    TestTy.pong ≠ TestTy.ping ∧
    AnyMessage.downcast testUniverse TestTy.pong
        (Message.into_any testUniverse TestTy.ping ⟨7⟩) =
      .error (Message.into_any testUniverse TestTy.ping ⟨7⟩) :=
  ⟨fun h => TestTy.noConfusion h,
   c2_downcast_type_safety testUniverse TestTy.ping TestTy.pong ⟨7⟩
     (fun h => TestTy.noConfusion h)⟩

/-- Claim C3: the payload's cleanup runs exactly once over the envelope's
whole lifetime — once at shell drop when the envelope is dropped without
downcasting, and once on the extracted value (with none at shell drop)
after a successful consuming downcast. -/
theorem c3_destroy_once (lc : Lifecycle) : totalCleanupRuns lc = 1 := by
  cases lc <;> rfl

/-- Claim C4: `name()`, `protocol()`, `labels()` and `dumping_allowed()`
observed on the erased envelope equal those observed on the original value
before erasure, and each accessor returns exactly the corresponding field
of the type's static vtable. -/
theorem c4_metadata_stability (U : MessageUniverse) (a : U.Ty) (v : U.Payload a) :
    AnyMessage.name (Message.into_any U a v) = Message.name U a v ∧
    AnyMessage.protocol (Message.into_any U a v) = Message.protocol U a v ∧
    AnyMessage.labels (Message.into_any U a v) = Message.labels U a v ∧
    AnyMessage.dumping_allowed (Message.into_any U a v) =
      Message.dumping_allowed U a v ∧
    Message.name U a v = (Message.vtable U a).name ∧
    Message.protocol U a v = (Message.vtable U a).protocol ∧
    Message.labels U a v = (Message.vtable U a).labels ∧
    Message.dumping_allowed U a v = (Message.vtable U a).dumping_allowed :=
  ⟨rfl, rfl, rfl, rfl, rfl, rfl, rfl, rfl⟩

/-- Claim C5: the default `is_supertype_of(id)` of a concrete message type
holds exactly when `id` equals the type's own identifier, while the erased
envelope type overrides it to report compatibility with every
identifier. -/
theorem c5_supertype_default_and_override (U : MessageUniverse) :
    (∀ (a : U.Ty) (tid : MessageTypeId),
      Message.is_supertype_of U a tid = true ↔ tid = Message.type_id U a) ∧
    (∀ tid : MessageTypeId, AnyMessage.is_supertype_of tid = true) := by
  refine ⟨fun a tid => ?_, fun _ => rfl⟩
  simp only [Message.is_supertype_of, Message.type_id, beq_iff_eq]
  exact eq_comm

/-- Claim C6: for every request triple, the Response/Wrapper conversion
pair is a two-sided inverse — Response → Wrapper → Response and
Wrapper → Response → Wrapper are both the identity. -/
theorem c6_wrapper_inverse (rq : Request) :
    (∀ r : rq.Response, rq.wrapper_into_response (rq.wrapper_from_response r) = r) ∧
    (∀ w : rq.Wrapper, rq.wrapper_from_response (rq.wrapper_into_response w) = w) :=
  ⟨rq.into_from, rq.from_into⟩

/-- Claim C7: writing a concrete message value into a buffer and then
reading the same concrete type back yields the value unchanged, and
neither primitive runs any destructor on the source bytes. -/
theorem c7_read_write_roundtrip (U : MessageUniverse) (a : U.Ty)
    (v : U.Payload a) (buf : ReprBuffer U a) :
    Message.read U a (Message.write U a v buf).1 = (some v, 0) ∧
    (Message.write U a v buf).2 = 0 :=
  ⟨rfl, rfl⟩

/-- Claim C8: `erase()` unconditionally produces an independent cloned
diagnostic snapshot — it succeeds and clones even when the type's
`dumping_allowed()` is `false`, performing no permission check itself. -/
theorem c8_erase_unconditional (U : MessageUniverse) (a : U.Ty)
    (v : U.Payload a) (_h : Message.dumping_allowed U a v = false) :
    Message.erase U a v = ⟨a, Message.clone U a v⟩ :=
  rfl

/-- Claim C8 witness: `SecretReport` has `dumping_allowed() == false`, yet
`erase()` still produces the cloned snapshot. -/
theorem c8_erase_unconditional_witness :
    Message.dumping_allowed testUniverse TestTy.secret ⟨42⟩ = false ∧
    Message.erase testUniverse TestTy.secret ⟨42⟩ =
      ⟨TestTy.secret, Message.clone testUniverse TestTy.secret ⟨42⟩⟩ :=
  ⟨rfl, c8_erase_unconditional testUniverse TestTy.secret ⟨42⟩ rfl⟩

/-- Claim C9: the metadata accessors depend only on the concrete type, not
on the payload's field values — any two values of the same concrete
message type agree on `name()`, `protocol()`, `labels()` and
`dumping_allowed()`. -/
theorem c9_metadata_payload_independent (U : MessageUniverse) (a : U.Ty)
    (v1 v2 : U.Payload a) :
    Message.name U a v1 = Message.name U a v2 ∧
    Message.protocol U a v1 = Message.protocol U a v2 ∧
    Message.labels U a v1 = Message.labels U a v2 ∧
    Message.dumping_allowed U a v1 = Message.dumping_allowed U a v2 :=
  ⟨rfl, rfl, rfl, rfl⟩

/-- Claim C10: the deprecated `upcast(self)` returns exactly the same
erased envelope as `_into_any(self)`, which itself delegates to
`AnyMessage::from_real`; the two entry points into erasure are
equivalent. -/
theorem c10_upcast_equals_into_any (U : MessageUniverse) (a : U.Ty)
    (v : U.Payload a) :
    Message.upcast U a v = Message.into_any U a v ∧
    Message.into_any U a v = AnyMessage.from_real U a v :=
  ⟨rfl, rfl⟩

end Elfo
